import Mathlib

/-!
# Verification of the wine-quality dashboard's prediction client and
# response normalizer (`apps/wine.py`)

This file gives a shallow embedding of the two testable units of the
repository:

* `get_prediction` (lines 8-49 of `apps/wine.py`): builds the JSON payload,
  checks configuration, performs one HTTP POST through an abstracted
  transport, and decodes the body as JSON;
* the `tab1` normalization block (lines 96-139): extracts the scalar
  prediction from the `result` field (three accepted shapes), converts it
  to float, extracts `release.model_version_number` and `model_time_in_ms`
  metadata, with a broad `except` handler around the whole block.

JSON values are modelled by the inductive `Json`; Python numbers are
modelled by exact rationals (`ℚ`); Python exceptions arising on the
modelled paths by `PyExc`; the fallible steps by `Except PyExc`.
-/

namespace WineApp

/-- Python exceptions that can be raised on the code paths modelled here:
`IndexError` from `xs[0]` on an empty list, `AttributeError` from `.get`
on a non-dict, `ValueError` from `float(s)` on an unparseable string, and
`TypeError` from `float(x)` on a list/dict/None. -/
inductive PyExc where
  | indexError
  | attributeError
  | valueError
  | typeError
deriving DecidableEq

/-- A parsed JSON value, as produced by `response.json()`.  Numbers are
modelled as exact rationals. -/
inductive Json where
  | null
  | bool (b : Bool)
  | num (q : ℚ)
  | str (s : String)
  | arr (elems : List Json)
  | obj (fields : List (String × Json))

/-- `isinstance(x, list)`. -/
def Json.isArr : Json → Bool
  | .arr _ => true
  | _ => false

/-- `x is None`. -/
def Json.isNull : Json → Bool
  | .null => true
  | _ => false

/-- Python truthiness of a JSON value: `None`, `False`, `0`, `""`, `[]`
and `{}` are falsy, everything else truthy (the `if result:` gate at
line 100). -/
def Json.truthy : Json → Bool
  | .null => false
  | .bool b => b
  | .num q => decide (q ≠ 0)
  | .str s => !s.isEmpty
  | .arr elems => !elems.isEmpty
  | .obj fields => !fields.isEmpty

/-- First-match lookup in a JSON object's field list (Python dict keys are
unique, so first-match agrees with dict lookup). -/
def lookupField : List (String × Json) → String → Option Json
  | [], _ => none
  | (k, v) :: rest, key => if k = key then some v else lookupField rest key

/-- `x.get(key, dflt)`: returns the stored value when the key is present
(even when that value is `None`), the default when absent, and raises
`AttributeError` when `x` is not a dict. -/
def Json.get (j : Json) (key : String) (dflt : Json) : Except PyExc Json :=
  match j with
  | .obj fields => .ok ((lookupField fields key).getD dflt)
  | _ => .error .attributeError

/-- `xs[i]` on a Python list: `IndexError` when out of bounds. -/
def pyIndex (xs : List Json) (i : Nat) : Except PyExc Json :=
  match xs.get? i with
  | some v => .ok v
  | none => .error .indexError

/-- Lines 103-114: `raw_prediction = result.get('result')`, then the
three-shape dispatch.  Case A: `raw` is a list whose element 0 is a list
(evaluating `raw[0]` can raise `IndexError`), take `raw[0][0]`.  Case B:
`raw` is a (flat) list, take `raw[0]`.  Case C: use `raw` as-is.
`result.get` with no default yields `None` for a missing key, modelled by
`Json.null`. -/
def extractPred (result : Json) : Except PyExc Json := do
  let raw ← result.get "result" .null
  match raw with
  | .arr xs => do
      let x0 ← pyIndex xs 0
      match x0 with
      | .arr ys => pyIndex ys 0
      | _ => pure x0
  | _ => pure raw

/-- Numeric value of a decimal-digit character. -/
def digitsToNat (ds : List Char) : Nat :=
  ds.foldl (fun a c => 10 * a + (c.toNat - 48)) 0

/-- Exponent suffix of a float literal, after `e`/`E`: optional sign then
at least one digit.  Returns the exponent and the unconsumed characters;
`none` when an `e` is present but malformed. -/
def parseSignedDigits (cs : List Char) : Option (Int × List Char) :=
  let p : Int × List Char :=
    match cs with
    | '+' :: r => (1, r)
    | '-' :: r => (-1, r)
    | r => (1, r)
  let ds := p.2.takeWhile Char.isDigit
  let rest := p.2.dropWhile Char.isDigit
  if ds.isEmpty then none else some (p.1 * (digitsToNat ds : Int), rest)

/-- Optional exponent part of a float literal. -/
def parseExpPart : List Char → Option (Int × List Char)
  | 'e' :: r => parseSignedDigits r
  | 'E' :: r => parseSignedDigits r
  | r => some (0, r)

/-- The string with leading and trailing whitespace removed, as a
character list (Python `float` strips whitespace first). -/
def stripWs (s : String) : List Char :=
  ((s.toList.dropWhile Char.isWhitespace).reverse.dropWhile
    Char.isWhitespace).reverse

/-- Python `float(s)` on a string, for the decimal-literal core of its
grammar: optional surrounding whitespace, optional sign, digits with an
optional fractional part (at least one digit overall), and an optional
`e`/`E` exponent.  (`inf`/`nan` literals have no exact-rational value and
are outside this model.)  `none` models `ValueError`. -/
def parseFloat? (s : String) : Option ℚ :=
  let cs := stripWs s
  let p : ℚ × List Char :=
    match cs with
    | '+' :: r => (1, r)
    | '-' :: r => (-1, r)
    | r => (1, r)
  let ipart := p.2.takeWhile Char.isDigit
  let r1 := p.2.dropWhile Char.isDigit
  let fp : List Char × List Char :=
    match r1 with
    | '.' :: r => (r.takeWhile Char.isDigit, r.dropWhile Char.isDigit)
    | r => ([], r)
  if ipart.isEmpty && fp.1.isEmpty then none
  else
    match parseExpPart fp.2 with
    | none => none
    | some (e, r3) =>
        if r3.isEmpty then
          some (p.1 * ((digitsToNat ipart : ℚ)
            + (digitsToNat fp.1 : ℚ) / 10 ^ fp.1.length) * (10 : ℚ) ^ e)
        else none

/-- Python `float(x)` (line 121): numbers pass through, booleans become
0/1, strings are parsed (`ValueError` on failure), `None`, lists and
dicts raise `TypeError`. -/
def pyFloat (j : Json) : Except PyExc ℚ :=
  match j with
  | .num q => .ok q
  | .bool b => .ok (if b then 1 else 0)
  | .str s =>
      match parseFloat? s with
      | some q => .ok q
      | none => .error .valueError
  | .null => .error .typeError
  | .arr _ => .error .typeError
  | .obj _ => .error .typeError

/-- Outcome of the whole `try` block at lines 101-139.  `success` carries
the float prediction and the two metadata values as displayed;
`missingValue` is the `st.error("Could not extract a prediction value.")`
branch (line 118); `parseError` is the broad `except` handler (lines
136-139), which displays the exception and the raw response JSON in a
debug expander. -/
inductive NormOutcome where
  | success (pred : ℚ) (model_version : Json) (response_time : Json)
  | missingValue
  | parseError (exc : PyExc) (raw : Json)

/-- The body of the `try` block: extract the prediction value, check it
for `None`, convert to float, then read
`result.get('release', {}).get('model_version_number', 'Unknown')` and
`result.get('model_time_in_ms', 0)`.  Any raised exception propagates. -/
def normalizeE (result : Json) : Except PyExc NormOutcome := do
  let pred_raw ← extractPred result
  if pred_raw.isNull then
    pure .missingValue
  else do
    let pred ← pyFloat pred_raw
    let rel ← result.get "release" (.obj [])
    let model_version ← rel.get "model_version_number" (.str "Unknown")
    let response_time ← result.get "model_time_in_ms" (.num 0)
    pure (.success pred model_version response_time)

/-- The `try`/`except` block as a total function: a raised exception is
caught by the broad handler and surfaced with the raw response. -/
def normalize (result : Json) : NormOutcome :=
  match normalizeE result with
  | .ok o => o
  | .error e => .parseError e result

/-- Python numeric value handed to `int(is_red)`: the widget yields ints,
but the function accepts any bool/int/float. -/
inductive PyNum where
  | bool (b : Bool)
  | int (n : Int)
  | float (q : ℚ)

/-- Truncation of a rational toward zero, as Python `int(float)` does. -/
def ratTrunc (q : ℚ) : Int :=
  if 0 ≤ q then ⌊q⌋ else -⌊-q⌋

/-- Python `int(x)` on a bool/int/float. -/
def pyInt : PyNum → Int
  | .bool b => if b then 1 else 0
  | .int n => n
  | .float q => ratTrunc q

/-- Round half to even, the rounding used by Python's fixed-point float
formatting. -/
def roundHalfEven (q : ℚ) : Int :=
  if q - ⌊q⌋ < 1 / 2 then ⌊q⌋
  else if q - ⌊q⌋ > 1 / 2 then ⌊q⌋ + 1
  else if ⌊q⌋ % 2 = 0 then ⌊q⌋ else ⌊q⌋ + 1

/-- The low two decimal digits of a natural number, as a string. -/
def natDigits2 (n : Nat) : String :=
  String.mk [Nat.digitChar (n / 10 % 10), Nat.digitChar (n % 10)]

/-- Python `f"{q:.2f}"`: sign, integer part, a dot, then exactly two
fractional digits, rounding half to even. -/
def format2f (q : ℚ) : String :=
  (if q < 0 then "-" else "")
    ++ toString ((roundHalfEven (|q| * 100)).toNat / 100)
    ++ "." ++ natDigits2 (roundHalfEven (|q| * 100)).toNat

/-- The `data` dict of the request payload (lines 20-28): the three
density-style fields and alcohol as 2-decimal strings, `is_red` as the
Python int `int(is_red)`. -/
structure PayloadData where
  density : String
  volatile_acidity : String
  chlorides : String
  is_red : Int
  alcohol : String
deriving DecidableEq

/-- Payload construction from the five inputs. -/
def mkPayload (density volatile_acidity chlorides : ℚ) (is_red : PyNum)
    (alcohol : ℚ) : PayloadData :=
  { density := format2f density
    volatile_acidity := format2f volatile_acidity
    chlorides := format2f chlorides
    is_red := pyInt is_red
    alcohol := format2f alcohol }

/-- Environment variables read at lines 10-12; `none` models an unset
variable. -/
structure Env where
  api_url : Option String
  username : Option String
  password : Option String

/-- The outbound HTTP request as handed to `requests.post`. -/
structure HttpRequest where
  url : String
  auth : Option String × Option String
  payload : PayloadData

/-- Behaviour of the HTTP transport on one request: it raises a
`requests.exceptions.RequestException` carrying a message, or returns a
response whose body either fails JSON decoding (`none`) or parses to a
JSON value. -/
inductive TransportResult where
  | raise (msg : String)
  | response (body : String) (parsed : Option Json)

/-- What one call of `get_prediction` produced: the returned value
(`none` on every error path), the `st.error` messages shown, and how many
times the transport was invoked. -/
structure ClientOutcome where
  result : Option Json
  errors : List String
  networkCalls : Nat

/-- Message of the missing-configuration branch (line 15). -/
def configErrorMsg : String := "API_URL environment variable is not set."

/-- Message of the transport-failure branch (line 48). -/
def networkErrorMsg (e : String) : String := "HTTP Request failed: " ++ e

/-- Message of the JSON-decode-failure branch (line 43). -/
def jsonErrorMsg : String := "API did not return valid JSON."

/-- `get_prediction` (lines 8-49): read the environment, short-circuit
with an error when `API_URL` is unset or empty (Python falsiness of
`None` and `""`), otherwise build the payload, invoke the transport
once, and decode the body. -/
def get_prediction (env : Env) (transport : HttpRequest → TransportResult)
    (density volatile_acidity chlorides : ℚ) (is_red : PyNum)
    (alcohol : ℚ) : ClientOutcome :=
  match env.api_url with
  | none => { result := none, errors := [configErrorMsg], networkCalls := 0 }
  | some url =>
      if url.isEmpty then
        { result := none, errors := [configErrorMsg], networkCalls := 0 }
      else
        let payload :=
          mkPayload density volatile_acidity chlorides is_red alcohol
        match transport { url := url, auth := (env.username, env.password),
                          payload := payload } with
        | .raise msg =>
            { result := none, errors := [networkErrorMsg msg],
              networkCalls := 1 }
        | .response _ none =>
            { result := none, errors := [jsonErrorMsg], networkCalls := 1 }
        | .response _ (some j) =>
            { result := some j, errors := [], networkCalls := 1 }

/-- What the main panel displays after the client call: `nothing` when
the `if result:` gate at line 100 is not taken (client returned `None`,
or a falsy JSON value), otherwise the normalization outcome. -/
inductive Tab1Display where
  | nothing
  | shown (o : NormOutcome)

/-- Lines 100-139: the truthiness gate followed by normalization. -/
def tab1Render (result : Option Json) : Tab1Display :=
  match result with
  | none => .nothing
  | some j => if j.truthy then .shown (normalize j) else .nothing

/-- The displayed quality estimate: the converted float when the block
reaches the success path (line 131), `none` when no prediction is shown
(missing value, or any exception caught by the broad handler). -/
def predValue (result : Json) : Option ℚ :=
  match normalizeE result with
  | .ok (.success q _ _) => some q
  | _ => none

/-- Model version displayed on success, characterized over the response's
field list: `release.model_version_number` when `release` is an object
containing it, `"Unknown"` when `release` is absent or lacks the key. -/
def metaVersion (fs : List (String × Json)) : Json :=
  match lookupField fs "release" with
  | some (.obj rfs) => (lookupField rfs "model_version_number").getD (.str "Unknown")
  | _ => .str "Unknown"

/-- Response time displayed on success: `model_time_in_ms` when present,
`0` when absent. -/
def metaTime (fs : List (String × Json)) : Json :=
  (lookupField fs "model_time_in_ms").getD (.num 0)

/-- A string that ends in a dot followed by exactly two decimal digits:
the two digits after the final `.` are its fractional digits. -/
def hasTwoFracDigits (s : String) : Prop :=
  ∃ t u, s = t ++ "." ++ u ∧ u.length = 2
    ∧ (∀ c ∈ u.toList, c.isDigit = true) ∧ '.' ∉ u.toList

lemma predValue_spec (result : Json) :
    predValue result
      = match normalize result with
        | .success q _ _ => some q
        | _ => none := by
  unfold predValue normalize
  cases h : normalizeE result with
  | error e => rfl
  | ok o => cases o <;> rfl

lemma digitChar_mod10_isDigit (n : Nat) :
    (Nat.digitChar (n % 10)).isDigit = true := by
  have h : n % 10 < 10 := Nat.mod_lt _ (by norm_num)
  exact (by decide : ∀ k, k < 10 → (Nat.digitChar k).isDigit = true) _ h

lemma digitChar_mod10_ne_dot (n : Nat) : Nat.digitChar (n % 10) ≠ '.' := by
  have h : n % 10 < 10 := Nat.mod_lt _ (by norm_num)
  exact (by decide : ∀ k, k < 10 → Nat.digitChar k ≠ '.') _ h

lemma format2f_hasTwoFracDigits (q : ℚ) : hasTwoFracDigits (format2f q) := by
  refine ⟨(if q < 0 then "-" else "")
      ++ toString ((roundHalfEven (|q| * 100)).toNat / 100),
    natDigits2 (roundHalfEven (|q| * 100)).toNat, rfl, rfl, ?_, ?_⟩
  · intro c hc
    simp only [natDigits2, String.toList, List.mem_cons,
      List.not_mem_nil, or_false] at hc
    rcases hc with h | h <;> subst h
    · exact digitChar_mod10_isDigit _
    · exact digitChar_mod10_isDigit _
  · intro hmem
    simp only [natDigits2, String.toList, List.mem_cons,
      List.not_mem_nil, or_false] at hmem
    rcases hmem with h | h
    · exact digitChar_mod10_ne_dot _ h.symm
    · exact digitChar_mod10_ne_dot _ h.symm

/-- C1: for every scalar (non-list) value `v`, a response whose `result`
field is `[[v]]`, `[v]`, or `v` yields the same extracted value `v` — the
nested shape is dispatched first (its `[0][0]` element is taken even
though it also matches the flat-list test), then the flat shape's `[0]`,
then the direct scalar — and the three responses (agreeing on every other
field) yield the same normalized prediction value. -/
theorem c1_shape_precedence_same_value (v : Json)
    (rest : List (String × Json)) (hv : v.isArr = false) :
    extractPred (.obj (("result", .arr [.arr [v]]) :: rest)) = .ok v
    ∧ extractPred (.obj (("result", .arr [v]) :: rest)) = .ok v
    ∧ extractPred (.obj (("result", v) :: rest)) = .ok v
    ∧ predValue (.obj (("result", .arr [.arr [v]]) :: rest))
        = predValue (.obj (("result", .arr [v]) :: rest))
    ∧ predValue (.obj (("result", .arr [v]) :: rest))
        = predValue (.obj (("result", v) :: rest)) := by
  cases v <;> first
    | exact ⟨rfl, rfl, rfl, rfl, rfl⟩
    | simp [Json.isArr] at hv

/-- C1 witness: the three shapes at the concrete scalar `5`. -/
theorem c1_witness :
    extractPred (.obj [("result", .arr [.arr [.num 5]])]) = .ok (.num 5)
    ∧ extractPred (.obj [("result", .arr [.num 5])]) = .ok (.num 5)
    ∧ extractPred (.obj [("result", .num 5)]) = .ok (.num 5)
    ∧ predValue (.obj [("result", .arr [.arr [.num 5]])])
        = predValue (.obj [("result", .arr [.num 5])])
    ∧ predValue (.obj [("result", .arr [.num 5])])
        = predValue (.obj [("result", .num 5)]) :=
  c1_shape_precedence_same_value (.num 5) [] rfl

/-- C2 counterexample: the claim says the serialized `is_red` field is
always the integer 0 or 1, but `int(is_red)` passes any integer through:
input `2` serializes as `2`. -/
theorem c2_counterexample :
    (mkPayload 1 1 1 (.int 2) 1).is_red = 2
    ∧ (mkPayload 1 1 1 (.int 2) 1).is_red ≠ 0
    ∧ (mkPayload 1 1 1 (.int 2) 1).is_red ≠ 1 :=
  ⟨rfl, by decide, by decide⟩

/-- C2 amended: the serialized `is_red` field is always the integer
`int(is_red)` (an integer by construction, never a boolean literal or a
string); it is 0 or 1 for boolean inputs (and for the integer inputs 0
and 1), but any other integer input passes through unchanged. -/
theorem c2_is_red_int (d va ch al : ℚ) (ir : PyNum) :
    (mkPayload d va ch ir al).is_red = pyInt ir
    ∧ (∀ b : Bool, (mkPayload d va ch (.bool b) al).is_red = 0
        ∨ (mkPayload d va ch (.bool b) al).is_red = 1)
    ∧ (mkPayload d va ch (.bool true) al).is_red = 1
    ∧ (mkPayload d va ch (.bool false) al).is_red = 0 := by
  refine ⟨rfl, ?_, rfl, rfl⟩
  intro b
  cases b
  · exact Or.inl rfl
  · exact Or.inr rfl

/-- C3 counterexample: on `{"result": 5, "release": 42}` the primary
value extraction and float conversion succeed, yet normalization fails
through the broad handler (`42 .get` raises `AttributeError`) instead of
degrading the metadata to its defaults. -/
theorem c3_counterexample :
    extractPred (.obj [("result", .num 5), ("release", .num 42)])
      = .ok (.num 5)
    ∧ pyFloat (.num 5) = .ok 5
    ∧ normalize (.obj [("result", .num 5), ("release", .num 42)])
        = .parseError .attributeError
            (.obj [("result", .num 5), ("release", .num 42)]) :=
  ⟨rfl, rfl, rfl⟩

/-- C3 amended: whenever the primary value extraction succeeds (with a
non-`None` value that converts to float) and the `release` field is
either absent or a JSON object, normalization succeeds, with the model
version degrading to `"Unknown"` and the response time to `0` when the
respective paths are missing; when `release` is present with a non-object
value, the metadata read raises and the broad handler reports it. -/
theorem c3_metadata_defaults (fs : List (String × Json)) (v : Json) (q : ℚ)
    (h1 : extractPred (.obj fs) = .ok v) (h2 : v.isNull = false)
    (h3 : pyFloat v = .ok q)
    (h4 : lookupField fs "release" = none
        ∨ ∃ rfs, lookupField fs "release" = some (.obj rfs)) :
    normalize (.obj fs) = .success q (metaVersion fs) (metaTime fs) := by
  rcases h4 with h4 | ⟨rfs, h4⟩ <;>
    simp [normalize, normalizeE, h1, h2, h3, h4, Json.get, metaVersion,
      metaTime, lookupField, Bind.bind, Except.bind, Pure.pure,
      Except.pure]

/-- C3 witness: `{"result": 5}` with no `release` key normalizes to the
prediction 5 with model version `"Unknown"` and response time `0`. -/
theorem c3_witness :
    normalize (.obj [("result", .num 5)])
      = .success 5 (.str "Unknown") (.num 0) :=
  c3_metadata_defaults [("result", .num 5)] (.num 5) 5 rfl rfl rfl
    (Or.inl rfl)

/-- C5: whenever the extracted result value is `None` (missing key,
stored `null`, or `null` inside either list shape), normalization reports
the missing-value error (line 118), not success and not an exception. -/
theorem c5_missing_value (fs : List (String × Json))
    (h : extractPred (.obj fs) = .ok .null) :
    normalize (.obj fs) = .missingValue := by
  simp [normalize, normalizeE, h, Json.isNull, Bind.bind, Except.bind,
    Pure.pure, Except.pure]

/-- C5 witness: `{"result": null}`. -/
theorem c5_witness : normalize (.obj [("result", .null)]) = .missingValue :=
  c5_missing_value [("result", .null)] rfl

/-- C6: whenever the extracted result value is present (not `None`) but
`float()` raises on it — `ValueError` for an unparseable string such as
`"not-a-number"`, `TypeError` for a list or dict — normalization reports
the conversion failure through the broad handler, carrying the exception
and the raw response: a distinct condition, not a crash and not the
missing-value error. -/
theorem c6_type_conversion (fs : List (String × Json)) (v : Json)
    (e : PyExc) (h1 : extractPred (.obj fs) = .ok v)
    (h2 : v.isNull = false) (h3 : pyFloat v = .error e) :
    normalize (.obj fs) = .parseError e (.obj fs)
    ∧ normalize (.obj fs) ≠ .missingValue := by
  have hm : normalize (.obj fs) = .parseError e (.obj fs) := by
    simp [normalize, normalizeE, h1, h2, h3, Bind.bind, Except.bind,
      Pure.pure, Except.pure]
  exact ⟨hm, by rw [hm]; exact fun hc => NormOutcome.noConfusion hc⟩

/-- C6 witness: `{"result": "not-a-number"}` fails with the
`ValueError` of `float("not-a-number")`. -/
theorem c6_witness :
    normalize (.obj [("result", .str "not-a-number")])
      = .parseError .valueError (.obj [("result", .str "not-a-number")])
    ∧ normalize (.obj [("result", .str "not-a-number")])
        ≠ .missingValue :=
  c6_type_conversion [("result", .str "not-a-number")]
    (.str "not-a-number") .valueError rfl rfl rfl

/-- C7: for all numeric inputs, the serialized `density`,
`volatile_acidity`, `chlorides` and `alcohol` payload fields are strings
with exactly two fractional digits, regardless of input precision; in
particular 0.993 serializes as "0.99" and 1 as "1.00". -/
theorem c7_two_decimal_format (d va ch al : ℚ) (ir : PyNum) :
    hasTwoFracDigits (mkPayload d va ch ir al).density
    ∧ hasTwoFracDigits (mkPayload d va ch ir al).volatile_acidity
    ∧ hasTwoFracDigits (mkPayload d va ch ir al).chlorides
    ∧ hasTwoFracDigits (mkPayload d va ch ir al).alcohol
    ∧ format2f (993 / 1000) = "0.99" ∧ format2f 1 = "1.00" := by
  refine ⟨format2f_hasTwoFracDigits d, format2f_hasTwoFracDigits va,
    format2f_hasTwoFracDigits ch, format2f_hasTwoFracDigits al, ?_, ?_⟩
  · have h : roundHalfEven (|(993 : ℚ) / 1000| * 100) = 99 := by
      norm_num [roundHalfEven, Int.fract, abs_of_nonneg]
    have hneg : ¬ ((993 : ℚ) / 1000 < 0) := by norm_num
    simp only [format2f, h, if_neg hneg]
    rfl
  · have h : roundHalfEven (|(1 : ℚ)| * 100) = 100 := by
      norm_num [roundHalfEven, Int.fract, abs_of_nonneg]
    have hneg : ¬ ((1 : ℚ) < 0) := by norm_num
    simp only [format2f, h, if_neg hneg]
    rfl

/-- C4: with no endpoint URL configured, `get_prediction` short-circuits
at line 14: it reports only the configuration error and never invokes the
HTTP transport. -/
theorem c4_config_error_no_network (u p : Option String)
    (transport : HttpRequest → TransportResult) (d va ch al : ℚ)
    (ir : PyNum) :
    get_prediction ⟨none, u, p⟩ transport d va ch ir al
      = { result := none, errors := [configErrorMsg], networkCalls := 0 } :=
  rfl

/-- C8: when the URL is configured and the transport raises a
request exception, `get_prediction` returns (rather than crashes) with
the network-error message and no parsed result, after exactly one
transport invocation. -/
theorem c8_network_error (url : String) (u p : Option String)
    (transport : HttpRequest → TransportResult) (d va ch al : ℚ)
    (ir : PyNum) (msg : String) (hurl : url.isEmpty = false)
    (ht : transport { url := url, auth := (u, p),
                      payload := mkPayload d va ch ir al } = .raise msg) :
    get_prediction ⟨some url, u, p⟩ transport d va ch ir al
      = { result := none, errors := [networkErrorMsg msg],
          networkCalls := 1 } := by
  simp [get_prediction, hurl, ht]

/-- C8 witness: a transport that always raises. -/
theorem c8_witness :
    get_prediction ⟨some "u", none, none⟩ (fun _ => .raise "boom")
        1 1 1 (.bool true) 1
      = { result := none, errors := [networkErrorMsg "boom"],
          networkCalls := 1 } :=
  c8_network_error "u" none none (fun _ => .raise "boom")
    1 1 1 1 (.bool true) "boom" rfl rfl

/-- C9: a `result` field that is the empty list (so `raw_prediction[0]`
in the `isinstance` test raises `IndexError`), or a list whose first
element is the empty list (so `raw_prediction[0][0]` raises), is caught
by the broad handler and surfaced as a diagnostic together with the raw
response — neither a crash nor the missing-value error. -/
theorem c9_index_error_diagnostic :
    (∀ fs : List (String × Json), lookupField fs "result" = some (.arr []) →
      normalize (.obj fs) = .parseError .indexError (.obj fs)
      ∧ normalize (.obj fs) ≠ .missingValue)
    ∧ (∀ (fs : List (String × Json)) (tl : List Json),
        lookupField fs "result" = some (.arr (.arr [] :: tl)) →
        normalize (.obj fs) = .parseError .indexError (.obj fs)
        ∧ normalize (.obj fs) ≠ .missingValue) := by
  constructor
  · intro fs h
    have hm : normalize (.obj fs) = .parseError .indexError (.obj fs) := by
      simp [normalize, normalizeE, extractPred, Json.get, h, pyIndex,
        Bind.bind, Except.bind, Pure.pure, Except.pure]
    exact ⟨hm, by rw [hm]; exact fun hc => NormOutcome.noConfusion hc⟩
  · intro fs tl h
    have hm : normalize (.obj fs) = .parseError .indexError (.obj fs) := by
      simp [normalize, normalizeE, extractPred, Json.get, h, pyIndex,
        Bind.bind, Except.bind, Pure.pure, Except.pure]
    exact ⟨hm, by rw [hm]; exact fun hc => NormOutcome.noConfusion hc⟩

/-- C9 witness: `{"result": []}` and `{"result": [[]]}`. -/
theorem c9_witness :
    normalize (.obj [("result", .arr [])])
      = .parseError .indexError (.obj [("result", .arr [])])
    ∧ normalize (.obj [("result", .arr [.arr []])])
        = .parseError .indexError (.obj [("result", .arr [.arr []])]) :=
  ⟨(c9_index_error_diagnostic.1 [("result", .arr [])] rfl).1,
    (c9_index_error_diagnostic.2 [("result", .arr [.arr []])] [] rfl).1⟩

/-- C10: the five falsy JSON values are rejected by the `if result:`
truthiness gate, and whenever the client successfully returns a parsed
falsy JSON value, the client shows no error yet the panel displays
nothing — normalization is skipped entirely. -/
theorem c10_falsy_gate :
    (Json.obj []).truthy = false ∧ (Json.arr []).truthy = false
    ∧ Json.null.truthy = false ∧ (Json.num 0).truthy = false
    ∧ (Json.bool false).truthy = false
    ∧ (∀ (j : Json) (url : String) (u p : Option String)
        (transport : HttpRequest → TransportResult) (d va ch al : ℚ)
        (ir : PyNum) (body : String), url.isEmpty = false →
        transport { url := url, auth := (u, p),
                    payload := mkPayload d va ch ir al }
          = .response body (some j) →
        j.truthy = false →
        get_prediction ⟨some url, u, p⟩ transport d va ch ir al
          = { result := some j, errors := [], networkCalls := 1 }
        ∧ tab1Render
            (get_prediction ⟨some url, u, p⟩ transport d va ch ir al).result
          = .nothing) := by
  refine ⟨by decide, rfl, rfl, by decide, rfl, ?_⟩
  intro j url u p transport d va ch al ir body hurl ht hj
  have hc : get_prediction ⟨some url, u, p⟩ transport d va ch ir al
      = { result := some j, errors := [], networkCalls := 1 } := by
    simp [get_prediction, hurl, ht]
  refine ⟨hc, ?_⟩
  rw [hc]
  simp [tab1Render, hj]

/-- C10 witness: the client returns the parsed empty object `{}`;
nothing is displayed. -/
theorem c10_witness :
    get_prediction ⟨some "u", none, none⟩
        (fun _ => .response "\x7b\x7d" (some (.obj []))) 1 1 1 (.bool true) 1
      = { result := some (.obj []), errors := [], networkCalls := 1 }
    ∧ tab1Render (get_prediction ⟨some "u", none, none⟩
        (fun _ => .response "\x7b\x7d" (some (.obj []))) 1 1 1
          (.bool true) 1).result
      = .nothing :=
  c10_falsy_gate.2.2.2.2.2 (.obj []) "u" none none
    (fun _ => .response "\x7b\x7d" (some (.obj []))) 1 1 1 1 (.bool true)
    "\x7b\x7d" rfl rfl rfl

end WineApp
